import Mathlib

/-!
Shallow embedding of the HEUNETS work-item service
(`src/workItem/services/WorkItemService.js`, here the file
`src/unnamed/part_001`, together with
`src/workItem/data/repositories/workItemRepository.js` and
`src/workItem/data/models/workItemModel.js`).

Conventions of the embedding:
* MongoDB ObjectIds are modelled as `String` (the service compares them as
  opaque values and validates their 24-hex shape with a regex).
* JavaScript `Date` values are modelled as integer timestamps (`Int`).
* A client payload field that may be absent is an `Option`; JavaScript
  truthiness of a string field is `strTruthy` (absent and `""` are falsy).
* A supplied due-date payload is modelled as `Option Int`: `some t` when the
  string parses to the timestamp `t`, `none` when `new Date(...)` yields NaN.
* The admin directory (`Admin` collection, queried with `Admin.findOne` /
  `Admin.find`) is a list of `Admin` records; the admin model file itself is
  not among the work-item sources, its fields (`firstName`, `lastName`,
  `email`, `isActive`) are the ones the service reads.
* The work-item collection is a list of `WorkItem` documents; the Mongoose
  schema is `strict` (its default), so an insert or `$set` silently drops any
  path that is not declared in `workItemSchema`.
-/

/-- Statuses accepted by the service (`validStatuses` in the service and the
`status` enum of `workItemSchema`). -/
def validStatuses : List String := ["pending", "in_progress", "completed", "cancelled"]

/-- Priorities accepted by the service (`validPriorities` in the service and
the `priority` enum of `workItemSchema`). -/
def validPriorities : List String := ["low", "medium", "high", "urgent"]

/-- JavaScript truthiness of an optional string field: absent (`undefined`)
and the empty string are falsy. -/
def strTruthy : Option String → Bool
  | none => false
  | some s => s ≠ ""

/-- JavaScript `String.prototype.trim`: strip whitespace from both ends
(implemented structurally over the character list so that concrete instances
compute). -/
def jsTrim (s : String) : String :=
  ⟨((s.toList.dropWhile Char.isWhitespace).reverse.dropWhile Char.isWhitespace).reverse⟩

/-- JavaScript `String.prototype.toLowerCase` (ASCII case folding,
structurally over the character list). -/
def jsToLower (s : String) : String :=
  ⟨s.toList.map Char.toLower⟩

/-- Split a character list at every occurrence of `sep` (the pieces between
the separators, in order). -/
def splitAtChar (sep : Char) : List Char → List (List Char)
  | [] => [[]]
  | c :: cs =>
    match splitAtChar sep cs with
    | [] => if c == sep then [[], []] else [[c]]
    | h :: t => if c == sep then [] :: h :: t else (c :: h) :: t

/-- An identity document of the admin directory.  The admin model file is not
part of the work-item sources; the fields are exactly the ones the work-item
service reads (`firstName lastName email` projections and the `isActive` and
`email` query conditions). -/
structure Admin where
  id : String
  firstName : String
  lastName : String
  email : String
  isActive : Bool
deriving Repr, DecidableEq

/-- The field paths declared by `workItemSchema`
(`workItemModel.js`, lines 3–58).  Note that `tags` is NOT declared. -/
def workItemSchemaPaths : List String :=
  ["title", "description", "status", "priority", "createdBy", "creatorModel",
   "assignedTo", "assigneeModel", "dueDate", "completedAt", "isActive"]

/-- A stored work-item document.  The record mirrors `workItemSchema` plus the
`createdAt` timestamp maintained by `timestamps: true`.  The `tags` slot
models the document field of that name: since `"tags"` is not a path of
`workItemSchema` and the schema is strict, no insert or update ever writes it,
so it is `none` in every document the code can produce; a `$in` query against
a missing field does not match (the filter values are strings, never null). -/
structure WorkItem where
  id : String
  title : String
  description : String
  status : String
  priority : String
  createdBy : String
  creatorModel : String
  assignedTo : Option String
  assigneeModel : Option String
  tags : Option (List String)
  dueDate : Option Int
  completedAt : Option Int
  isActive : Bool
  createdAt : Int
deriving Repr, DecidableEq

/-- `"tags"` is not a schema path: Mongoose strict mode drops it from inserts
and `$set` updates. -/
theorem tags_not_a_schema_path : "tags" ∉ workItemSchemaPaths := by decide

/-- A character allowed by every bracket of the service's email regex
`^[^\s@]+@[^\s@]+\.[^\s@]+$`: anything that is neither whitespace nor `@`. -/
def isEmailChar (c : Char) : Bool := !c.isWhitespace && c != '@'

/-- The domain part `[^\s@]+\.[^\s@]+` must contain a dot that has at least
one character before it and one after it. -/
def hasInteriorDot (l : List Char) : Bool :=
  (List.range l.length).any (fun i => l.getD i ' ' == '.' && decide (0 < i) && decide (i + 1 < l.length))

/-- The service's email shape test `/^[^\s@]+@[^\s@]+\.[^\s@]+$/.test s`:
exactly one `@`, a nonempty whitespace-free local part, and a nonempty
whitespace-free domain containing an interior dot. -/
def emailRegexTest (s : String) : Bool :=
  match splitAtChar '@' s.toList with
  | [localPart, domain] =>
      !localPart.isEmpty && localPart.all isEmailChar &&
      !domain.isEmpty && domain.all isEmailChar &&
      hasInteriorDot domain
  | _ => false

/-- `WorkItemService._isValidObjectId`: the 24-hex-character shape test
`/^[0-9a-fA-F]{24}$/.test id`. -/
def isValidObjectId (s : String) : Bool :=
  s.length == 24 && s.toList.all (fun c =>
    c.isDigit || ('a' ≤ c && c ≤ 'f') || ('A' ≤ c && c ≤ 'F'))

/-- `Admin.findOne({ email: e.toLowerCase() })`: the first directory document
whose stored email equals the lower-cased argument. -/
def adminFindByEmail (dir : List Admin) (email : String) : Option Admin :=
  dir.find? (fun a => a.email == jsToLower email)

/-- `Admin.findOne({ email: e.toLowerCase(), isActive: true })` as used by
`getWorkItemStats`: additionally requires the identity to be active. -/
def adminFindActiveByEmail (dir : List Admin) (email : String) : Option Admin :=
  dir.find? (fun a => a.email == jsToLower email && a.isActive)

/-- Save-time validation of `workItemSchema` (`newWorkItem.save()` runs the
validators): title 3–100 and description 10–500 characters (the values are
already trimmed by the `trim: true` setter), and the two enums.  `required`
on an empty trimmed title is subsumed by the minlength check. -/
def validateWorkItemDoc (w : WorkItem) : Except String Unit :=
  if w.title.length < 3 then .error "Title must be at least 3 characters long"
  else if w.title.length > 100 then .error "Title cannot exceed 100 characters"
  else if w.description.length < 10 then .error "Description must be at least 10 characters long"
  else if w.description.length > 500 then .error "Description cannot exceed 500 characters"
  else if !(validStatuses.contains w.status) then .error "Invalid status value"
  else if !(validPriorities.contains w.priority) then .error "Invalid priority value"
  else .ok ()

/-- `findWorkItemById` of the repository: `WorkItem.findById(id)` followed by
`populate` of the two relations.  There is no `isActive` condition: the
lookup is purely by id.  (Population only affects presentation and is
modelled in `formatWorkItem`.) -/
def findWorkItemById (db : List WorkItem) (id : String) : Option WorkItem :=
  db.find? (fun w => w.id == id)

/-- The `{firstName, lastName, email, fullName}` shape produced by
`_formatWorkItem` for a populated relation. -/
structure UserView where
  firstName : String
  lastName : String
  email : String
  fullName : String
deriving Repr, DecidableEq

/-- A work item as returned to the client by `_formatWorkItem`: internal ids
stripped, relations expanded to `UserView` or `null`. -/
structure FormattedWorkItem where
  title : String
  description : String
  status : String
  priority : String
  createdBy : Option UserView
  assignedTo : Option UserView
  creatorModel : String
  assigneeModel : Option String
  tags : Option (List String)
  dueDate : Option Int
  completedAt : Option Int
  isActive : Bool
  createdAt : Int
deriving Repr, DecidableEq

/-- `populate('createdBy'/'assignedTo', 'firstName lastName email')`:
resolve an identity reference against the directory. -/
def populateUser (dir : List Admin) (id : String) : Option Admin :=
  dir.find? (fun a => a.id == id)

/-- The relation object built by `_formatWorkItem`. -/
def toUserView (a : Admin) : UserView :=
  { firstName := a.firstName
    lastName := a.lastName
    email := a.email
    fullName := a.firstName ++ " " ++ a.lastName }

/-- `WorkItemService._formatWorkItem` applied to a document whose relations
are populated against the directory: expands `createdBy`/`assignedTo` to the
name/email shape (or `null` when the reference is absent or does not
resolve) and strips the internal identifiers. -/
def formatWorkItem (dir : List Admin) (w : WorkItem) : FormattedWorkItem :=
  { title := w.title
    description := w.description
    status := w.status
    priority := w.priority
    createdBy := (populateUser dir w.createdBy).map toUserView
    assignedTo := (w.assignedTo.bind (populateUser dir)).map toUserView
    creatorModel := w.creatorModel
    assigneeModel := w.assigneeModel
    tags := w.tags
    dueDate := w.dueDate
    completedAt := w.completedAt
    isActive := w.isActive
    createdAt := w.createdAt }

/-- The client payload of `createWorkItem` after the controller's
destructuring: the seven recognised fields.  A due-date payload is `some
(some t)` when the date string parses to timestamp `t`, `some none` when it is
present but `new Date(...)` gives NaN, `none` when absent. -/
structure CreateInput where
  title : Option String := none
  description : Option String := none
  status : Option String := none
  priority : Option String := none
  assignedTo : Option String := none
  tags : Option (List String) := none
  dueDate : Option (Option Int) := none
deriving Repr, DecidableEq

/-- The normalized document the service builds (`newWorkItemData`) and the
insert performed on it.  The payload spreads a `tags` key when `tags` is an
array, but `"tags"` is not a `workItemSchema` path, so the strict-mode insert
drops it: the stored document has no `tags` field (`tags := none`). -/
def buildNewWorkItem (newId : String) (createdAt : Int) (data : CreateInput)
    (createdById : String) (assignee : Option Admin) : WorkItem :=
  { id := newId
    title := jsTrim (data.title.getD "")
    description := jsTrim (data.description.getD "")
    status := if strTruthy data.status then data.status.getD "" else "pending"
    priority := if strTruthy data.priority then data.priority.getD "" else "medium"
    createdBy := createdById
    creatorModel := "Admin"
    assignedTo := assignee.map (fun a => a.id)
    assigneeModel := assignee.map (fun _ => "Admin")
    tags := none
    dueDate := match data.dueDate with | some (some t) => some t | _ => none
    completedAt := none
    isActive := true
    createdAt := createdAt }

/-- `new WorkItem(data); await newWorkItem.save()`: schema validation, then
the document is appended to the collection. -/
def saveNewWorkItem (db : List WorkItem) (w : WorkItem) :
    Except String (WorkItem × List WorkItem) :=
  match validateWorkItemDoc w with
  | .error e => .error e
  | .ok _ => .ok (w, db ++ [w])

/-- `if (dueDate) { ... if (dueDateObj < new Date()) ... }`: the due date is
present and parses to a timestamp earlier than now. -/
def dueDatePast (now : Int) : Option (Option Int) → Bool
  | some (some t) => decide (t < now)
  | _ => false

/-- `WorkItemService.createWorkItem` (service lines 55–128): the fail-fast
validation sequence, assignee resolution, due-date check, normalized document
build and insert.  The source then re-fetches the inserted document with
relations populated and formats it; the formatted view is `formatWorkItem`
of the returned document.  `newId`/`createdAt` stand for the id generated by
the persistence layer and the `timestamps: true` creation time.  The
`typeof assignedTo !== 'string'` guard is vacuous here because the payload
field is modelled as a string. -/
def createWorkItem (dir : List Admin) (now : Int) (newId : String) (createdAt : Int)
    (data : CreateInput) (createdById : String) (db : List WorkItem) :
    Except String (WorkItem × List WorkItem) :=
  if !strTruthy data.title || (jsTrim (data.title.getD "")).length < 3 then
    .error "Title must be at least 3 characters long"
  else if !strTruthy data.description || (jsTrim (data.description.getD "")).length < 10 then
    .error "Description must be at least 10 characters long"
  else if strTruthy data.priority && !(validPriorities.contains (data.priority.getD "")) then
    .error "Invalid priority. Must be one of: low, medium, high, urgent"
  else if strTruthy data.status && !(validStatuses.contains (data.status.getD "")) then
    .error "Invalid status. Must be one of: pending, in_progress, completed, cancelled"
  else if strTruthy data.assignedTo && !(emailRegexTest (data.assignedTo.getD "")) then
    .error "assignedTo must be a valid email address"
  else if strTruthy data.assignedTo && (adminFindByEmail dir (data.assignedTo.getD "")).isNone then
    .error ("User with email " ++ data.assignedTo.getD "" ++ " does not exist")
  else if data.dueDate == some none then
    .error "Invalid due date format"
  else if dueDatePast now data.dueDate then
    .error "Due date cannot be in the past"
  else
    saveNewWorkItem db (buildNewWorkItem newId createdAt data createdById
      (if strTruthy data.assignedTo then adminFindByEmail dir (data.assignedTo.getD "") else none))

/-- `WorkItemService.getWorkItemById`: fetch by id (no `isActive`
condition), not-found error, formatted result. -/
def getWorkItemById (dir : List Admin) (db : List WorkItem) (id : String) :
    Except String FormattedWorkItem :=
  match findWorkItemById db id with
  | none => .error "Work item not found"
  | some w => .ok (formatWorkItem dir w)

/-- The update payload after the service's allow-list restriction
(`allowedUpdates = ['title','description','status','priority','assignedTo',
'tags','dueDate']`, keys with `undefined` values dropped): unrecognised keys
cannot occur.  `dueDate` uses the same parse encoding as `CreateInput`. -/
structure UpdateInput where
  title : Option String := none
  description : Option String := none
  status : Option String := none
  priority : Option String := none
  assignedTo : Option String := none
  tags : Option (List String) := none
  dueDate : Option (Option Int) := none
deriving Repr, DecidableEq

/-- The `updates` object passed to the repository: the allow-listed payload
fields plus the derived `assigneeModel` and `completedAt` entries
(`completedAt := some none` models setting the field to `null`). -/
structure Updates where
  title : Option String := none
  description : Option String := none
  status : Option String := none
  priority : Option String := none
  assignedTo : Option String := none
  assigneeModel : Option String := none
  tags : Option (List String) := none
  dueDate : Option (Option Int) := none
  completedAt : Option (Option Int) := none
deriving Repr, DecidableEq

/-- `$set: updates` on one document: each present entry replaces the stored
field; the `trim: true` setters run on the `$set` string paths; `"tags"` is
not a schema path, so strict mode strips that entry and the document's
(nonexistent) `tags` field is untouched. -/
def applyUpdates (u : Updates) (w : WorkItem) : WorkItem :=
  { w with
    title := match u.title with | some s => jsTrim s | none => w.title
    description := match u.description with | some s => jsTrim s | none => w.description
    status := u.status.getD w.status
    priority := u.priority.getD w.priority
    assignedTo := match u.assignedTo with | some s => some s | none => w.assignedTo
    assigneeModel := match u.assigneeModel with | some s => some s | none => w.assigneeModel
    tags := w.tags
    dueDate := match u.dueDate with | some d => d | none => w.dueDate
    completedAt := match u.completedAt with | some c => c | none => w.completedAt }

/-- `runValidators: true`: update validators of the `$set` paths — minlength
and maxlength of title and description (on the trimmed value) and the two
enums.  Paths not present in the update are not validated. -/
def validateSetPaths (u : Updates) (w : WorkItem) : Except String Unit :=
  if u.title.isSome && w.title.length < 3 then
    .error "Title must be at least 3 characters long"
  else if u.title.isSome && w.title.length > 100 then
    .error "Title cannot exceed 100 characters"
  else if u.description.isSome && w.description.length < 10 then
    .error "Description must be at least 10 characters long"
  else if u.description.isSome && w.description.length > 500 then
    .error "Description cannot exceed 500 characters"
  else if u.status.isSome && !(validStatuses.contains w.status) then
    .error "Invalid status value"
  else if u.priority.isSome && !(validPriorities.contains w.priority) then
    .error "Invalid priority value"
  else .ok ()

/-- `updateWorkItem` of the repository: `findByIdAndUpdate(id, { $set:
updateData }, { new: true, runValidators: true })`.  Before applying, the two
casts that can still fail are modelled: the only `assignedTo` value the
service can leave unresolved is the falsy `""` (every truthy value was
replaced by a directory id or raised earlier), which does not cast to an
ObjectId; a present-but-unparseable due date (`some none`) does not cast to a
Date. -/
def updateWorkItemRepo (db : List WorkItem) (id : String) (u : Updates) :
    Except String (WorkItem × List WorkItem) :=
  match findWorkItemById db id with
  | none => .error "Work item not found"
  | some w =>
    if u.assignedTo == some "" then .error "Cast to ObjectId failed"
    else if u.dueDate == some none then .error "Cast to Date failed"
    else
      let w' := applyUpdates u w
      match validateSetPaths u w' with
      | .error e => .error e
      | .ok _ => .ok (w', db.map (fun x => if x.id == id then applyUpdates u x else x))

/-- The `updates` object right after the allow-list `forEach` copy. -/
def buildUpdates (patch : UpdateInput) : Updates :=
  { title := patch.title
    description := patch.description
    status := patch.status
    priority := patch.priority
    assignedTo := patch.assignedTo
    assigneeModel := none
    tags := patch.tags
    dueDate := patch.dueDate
    completedAt := none }

/-- `if (updates.assignedTo) { ...resolve... updates.assignedTo =
assignedUser._id; updates.assigneeModel = 'Admin'; }` — the in-place
replacement of a truthy `assignedTo` entry after the email resolved. -/
def resolveUpdatesAssignee (dir : List Admin) (u : Updates) : Updates :=
  if strTruthy u.assignedTo then
    { u with
      assignedTo := (adminFindByEmail dir (u.assignedTo.getD "")).map (fun a => a.id)
      assigneeModel := some "Admin" }
  else u

/-- The two `completedAt` derivation statements of `updateWorkItem`
(service lines 240–246): set to now on a transition into `completed`,
set to null on a truthy-status transition out of `completed`. -/
def deriveCompletedAt (now : Int) (oldStatus : String) (u : Updates) : Updates :=
  let u2 := if u.status == some "completed" && oldStatus != "completed" then
      { u with completedAt := some (some now) } else u
  if strTruthy u2.status && u2.status != some "completed" && oldStatus == "completed" then
    { u2 with completedAt := some none } else u2

/-- `WorkItemService.updateWorkItem` (service lines 193–250): fetch, allow-
list copy, assignee re-resolution, status/priority re-validation, the
`completedAt` derivation, and the repository `$set` with validators.  No due-
date check occurs on this path. -/
def updateWorkItem (dir : List Admin) (now : Int) (db : List WorkItem)
    (id : String) (patch : UpdateInput) : Except String (WorkItem × List WorkItem) :=
  match findWorkItemById db id with
  | none => .error "Work item not found"
  | some w =>
    let u0 := buildUpdates patch
    if strTruthy u0.assignedTo && !(emailRegexTest (u0.assignedTo.getD "")) then
      .error "assignedTo must be a valid email address"
    else if strTruthy u0.assignedTo && (adminFindByEmail dir (u0.assignedTo.getD "")).isNone then
      .error ("User with email " ++ u0.assignedTo.getD "" ++ " does not exist")
    else
      let u1 := resolveUpdatesAssignee dir u0
      if strTruthy u1.status && !(validStatuses.contains (u1.status.getD "")) then
        .error "Invalid status"
      else if strTruthy u1.priority && !(validPriorities.contains (u1.priority.getD "")) then
        .error "Invalid priority"
      else
        updateWorkItemRepo db id (deriveCompletedAt now w.status u1)

/-- `deleteWorkItem` of the repository: `findByIdAndUpdate(id, { $set:
{ isActive: false } }, { new: true })`. -/
def deleteWorkItemRepo (db : List WorkItem) (id : String) :
    Except String (WorkItem × List WorkItem) :=
  match findWorkItemById db id with
  | none => .error "Work item not found"
  | some w =>
    .ok ({ w with isActive := false },
         db.map (fun x => if x.id == id then { x with isActive := false } else x))

/-- `WorkItemService.deleteWorkItem` (service lines 252–260): fetch by id,
not-found error, then the soft delete; returns the confirmation message and
the updated collection. -/
def deleteWorkItem (db : List WorkItem) (id : String) :
    Except String (String × List WorkItem) :=
  match findWorkItemById db id with
  | none => .error "Work item not found"
  | some _ =>
    match deleteWorkItemRepo db id with
    | .error e => .error e
    | .ok (_, db') => .ok ("Work item deleted successfully", db')

/-- The list filters built by the controller from the query string
(comma-lists already split; `includeDeleted` already compared to `"true"`). -/
structure ListFilters where
  includeDeleted : Bool := false
  status : Option (List String) := none
  priority : Option (List String) := none
  assignedTo : Option String := none
  createdBy : Option String := none
  tags : Option (List String) := none
  search : Option String := none
deriving Repr, DecidableEq

/-- The pagination options built by the controller. -/
structure ListOptions where
  page : Option Nat := none
  limit : Option Nat := none
  sortBy : Option String := none
  sortOrder : Option String := none
deriving Repr, DecidableEq

/-- JavaScript truthiness of `filters.x && filters.x.length > 0` for an
optional array field: present and nonempty. -/
def listTruthy : Option (List String) → Bool
  | none => false
  | some l => !l.isEmpty

/-- The `queryFilters` object the service passes to the repository: each
`some` entry is a query condition, `none` means the condition is absent. -/
structure QueryFilter where
  isActive : Option Bool := none
  status : Option (List String) := none
  priority : Option (List String) := none
  assignedTo : Option String := none
  createdBy : Option String := none
  tags : Option (List String) := none
  search : Option String := none
deriving Repr, DecidableEq

/-- Case-insensitive substring containment, modelling the case-insensitive
`$regex` match for a metacharacter-free search string (no property below
exercises `search`). -/
def strContainsCI (hay needle : String) : Bool :=
  decide ((jsToLower needle).toList <:+: (jsToLower hay).toList)

/-- Whether a stored document matches `queryFilters`: equality conditions on
`isActive`/`assignedTo`/`createdBy`, `$in` set membership on
`status`/`priority`/`tags` (a `$in` against the missing `tags` field matches
nothing because the filter values are strings, never null), and the
title-or-description search. -/
def matchesQuery (q : QueryFilter) (w : WorkItem) : Bool :=
  (match q.isActive with | some b => w.isActive == b | none => true) &&
  (match q.status with | some l => l.contains w.status | none => true) &&
  (match q.priority with | some l => l.contains w.priority | none => true) &&
  (match q.assignedTo with | some v => w.assignedTo == some v | none => true) &&
  (match q.createdBy with | some v => w.createdBy == v | none => true) &&
  (match q.tags with
   | some l => (match w.tags with | some ts => ts.any (fun t => l.contains t) | none => false)
   | none => true) &&
  (match q.search with
   | some s => strContainsCI w.title s || strContainsCI w.description s
   | none => true)

/-- Building `queryFilters` in `getAllWorkItems` (service lines 140–175):
`isActive: true` unless `includeDeleted`; `$in` conditions for nonempty
`status`/`priority`/`tags` arrays; `assignedTo` resolved by email through
`Admin.findOne({ email })` — with NO `isActive` condition — failing when the
email is unknown; `createdBy` and `search` passed through. -/
def buildListQuery (dir : List Admin) (filters : ListFilters) :
    Except String QueryFilter :=
  match (if strTruthy filters.assignedTo then
           match adminFindByEmail dir (filters.assignedTo.getD "") with
           | none => .error ("User with email " ++ filters.assignedTo.getD "" ++ " does not exist")
           | some a => .ok (some a.id)
         else .ok none : Except String (Option String)) with
  | .error e => .error e
  | .ok assignedId =>
    .ok { isActive := if filters.includeDeleted then none else some true
          status := if listTruthy filters.status then filters.status else none
          priority := if listTruthy filters.priority then filters.priority else none
          assignedTo := assignedId
          createdBy := if strTruthy filters.createdBy then filters.createdBy else none
          tags := if listTruthy filters.tags then filters.tags else none
          search := if strTruthy filters.search then filters.search else none }

/-- The pagination metadata returned by the repository. -/
structure Pagination where
  total : Nat
  page : Nat
  pages : Nat
  limit : Nat
deriving Repr, DecidableEq

/-- Insertion step of the sort used to model the repository's `.sort(...)`. -/
def insertSorted (le : WorkItem → WorkItem → Bool) (x : WorkItem) :
    List WorkItem → List WorkItem
  | [] => [x]
  | y :: ys => if le x y then x :: y :: ys else y :: insertSorted le x ys

/-- Stable insertion sort over work items. -/
def sortWorkItems (le : WorkItem → WorkItem → Bool) : List WorkItem → List WorkItem
  | [] => []
  | x :: xs => insertSorted le x (sortWorkItems le xs)

/-- The repository's `.sort(sortString)`: `-createdAt` (the default) is
reverse-chronological by creation time, `createdAt` chronological.  Other
sort keys are not exercised by any property below; for them the collection
order is kept. -/
def applySort (sort : String) (l : List WorkItem) : List WorkItem :=
  if sort == "-createdAt" then sortWorkItems (fun a b => decide (b.createdAt ≤ a.createdAt)) l
  else if sort == "createdAt" then sortWorkItems (fun a b => decide (a.createdAt ≤ b.createdAt)) l
  else l

/-- `findAllWorkItems` of the repository: filter, sort, `skip((page-1)*limit)`,
`limit(limit)`, and the `{total, page, pages: Math.ceil(total/limit), limit}`
metadata computed from `countDocuments` on the same filters. -/
def findAllWorkItems (db : List WorkItem) (q : QueryFilter) (page limit : Nat)
    (sort : String) : List WorkItem × Pagination :=
  let matching := db.filter (matchesQuery q)
  (((applySort sort matching).drop ((page - 1) * limit)).take limit,
   { total := matching.length
     page := page
     pages := (matching.length + limit - 1) / limit
     limit := limit })

/-- `WorkItemService.getAllWorkItems` (service lines 139–191): build the
query, default `page`/`limit` (`options.page || 1`, `options.limit || 10`;
`0` is falsy), build the sort string (`sortOrder === 'asc'` ascending,
anything else descending; default `-createdAt`), fetch, and format each
item. -/
def getAllWorkItems (dir : List Admin) (filters : ListFilters)
    (options : ListOptions) (db : List WorkItem) :
    Except String (List FormattedWorkItem × Pagination) :=
  match buildListQuery dir filters with
  | .error e => .error e
  | .ok q =>
    let page := match options.page with | some p => if p == 0 then 1 else p | none => 1
    let limit := match options.limit with | some l => if l == 0 then 10 else l | none => 10
    let sort := match options.sortBy with
      | some f => (if options.sortOrder == some "asc" then "" else "-") ++ f
      | none => "-createdAt"
    let (items, pag) := findAllWorkItems db q page limit sort
    .ok (items.map (formatWorkItem dir), pag)

/-- `countWorkItemsByFilters` of the repository
(`WorkItem.countDocuments(filters)`): the number of documents matching the
filter predicate. -/
def countWorkItemsByFilters (db : List WorkItem) (p : WorkItem → Bool) : Nat :=
  (db.filter p).length

/-- Query-string filters of `getWorkItemStats`. -/
structure StatsFilters where
  createdBy : Option String := none
  assignedTo : Option String := none
deriving Repr, DecidableEq

/-- The six counters returned by `getWorkItemStats`. -/
structure WorkItemStats where
  total : Nat
  pending : Nat
  inProgress : Nat
  completed : Nat
  cancelled : Nat
  overdue : Nat
deriving Repr, DecidableEq

/-- The overdue condition used by the stats queries:
`status: { $nin: ['completed','cancelled'] }, dueDate: { $lt: now }` (a
document without a `dueDate` does not match `$lt`). -/
def overdueCond (now : Int) (w : WorkItem) : Bool :=
  !(["completed", "cancelled"].contains w.status) &&
  (match w.dueDate with | some d => decide (d < now) | none => false)

/-- `WorkItemService.getWorkItemStats` (service lines 334–387): the
`createdBy` filter is an email (resolved through `Admin.findOne({ email,
isActive: true })`, failing when no ACTIVE identity has it) or a 24-hex id
(passed through), anything else fails; the `assignedTo` filter is resolved
the same active-only way; then the six concurrent counts over
`{ isActive: true, ...resolved filters }`. -/
def getWorkItemStats (dir : List Admin) (now : Int) (db : List WorkItem)
    (filters : StatsFilters) : Except String WorkItemStats :=
  match (if strTruthy filters.createdBy then
           (if emailRegexTest (filters.createdBy.getD "") then
              match adminFindActiveByEmail dir (filters.createdBy.getD "") with
              | none => .error ("User with email " ++ filters.createdBy.getD "" ++ " does not exist")
              | some a => .ok (some a.id)
            else if isValidObjectId (filters.createdBy.getD "") then
              .ok filters.createdBy
            else .error "createdBy must be a valid user ID or email address")
         else .ok none : Except String (Option String)) with
  | .error e => .error e
  | .ok createdById =>
    match (if strTruthy filters.assignedTo then
             match adminFindActiveByEmail dir (filters.assignedTo.getD "") with
             | none => .error ("User with email " ++ filters.assignedTo.getD "" ++ " does not exist")
             | some a => .ok (some a.id)
           else .ok none : Except String (Option String)) with
    | .error e => .error e
    | .ok assignedId =>
      let base := fun (w : WorkItem) =>
        w.isActive &&
        (match createdById with | some v => w.createdBy == v | none => true) &&
        (match assignedId with | some v => w.assignedTo == some v | none => true)
      .ok { total := countWorkItemsByFilters db base
            pending := countWorkItemsByFilters db (fun w => base w && w.status == "pending")
            inProgress := countWorkItemsByFilters db (fun w => base w && w.status == "in_progress")
            completed := countWorkItemsByFilters db (fun w => base w && w.status == "completed")
            cancelled := countWorkItemsByFilters db (fun w => base w && w.status == "cancelled")
            overdue := countWorkItemsByFilters db (fun w => base w && overdueCond now w) }

/-- The result of `getMyWorkItemStats`. -/
structure MyWorkItemStats where
  total : Nat
  pending : Nat
  inProgress : Nat
  completed : Nat
  cancelled : Nat
  overdue : Nat
  assigned : Nat
  created : Nat
  completionRate : Int
  overdueRate : Int
deriving Repr, DecidableEq

/-- JavaScript `Math.round`: half rounds toward positive infinity. -/
def jsMathRound (q : Rat) : Int := Rat.floor (q + 1/2)

/-- The rate expression of `getMyWorkItemStats`:
`total > 0 ? Math.round((part / total) * 100) : 0`.  `Math.round(100·p/t)`
for natural `p`, positive `t` is `⌊(200·p + t) / (2·t)⌋`, computed here
exactly over the integers; `jsRate_eq` proves it equal to the rational
rounding formula `jsMathRound (p / t * 100)`. -/
def jsRate (part total : Nat) : Int :=
  if total > 0 then ((200 * part + total) / (2 * total) : Nat) else 0

/-- `WorkItemService.getMyWorkItemStats` (service lines 389–435): requires a
truthy `userId`; counts over `{ isActive: true, $or: [{ createdBy: userId },
{ assignedTo: userId }] }` (plus the per-status and overdue variants), the
assignee-only and creator-only counts, and the two percentage rates, each `0`
when `total` is `0`. -/
def getMyWorkItemStats (now : Int) (db : List WorkItem) (userId : String) :
    Except String MyWorkItemStats :=
  if userId == "" then .error "User ID is required"
  else
    let rel := fun (w : WorkItem) =>
      w.isActive && (w.createdBy == userId || w.assignedTo == some userId)
    let total := countWorkItemsByFilters db rel
    let completed := countWorkItemsByFilters db (fun w => rel w && w.status == "completed")
    let overdue := countWorkItemsByFilters db (fun w => rel w && overdueCond now w)
    .ok { total := total
          pending := countWorkItemsByFilters db (fun w => rel w && w.status == "pending")
          inProgress := countWorkItemsByFilters db (fun w => rel w && w.status == "in_progress")
          completed := completed
          cancelled := countWorkItemsByFilters db (fun w => rel w && w.status == "cancelled")
          overdue := overdue
          assigned := countWorkItemsByFilters db (fun w => w.isActive && w.assignedTo == some userId)
          created := countWorkItemsByFilters db (fun w => w.isActive && w.createdBy == userId)
          completionRate := jsRate completed total
          overdueRate := jsRate overdue total }

/-- The bulk-update payload after the service's allow-list restriction
(`allowedUpdates = ['status','priority','assignedTo','tags']`). -/
structure BulkUpdateInput where
  status : Option String := none
  priority : Option String := none
  assignedTo : Option String := none
  tags : Option (List String) := none
deriving Repr, DecidableEq

/-- The `updates` object `bulkUpdateWorkItems` passes to `updateMany`. -/
structure BulkUpdates where
  status : Option String := none
  priority : Option String := none
  assignedTo : Option String := none
  assigneeModel : Option String := none
  tags : Option (List String) := none
deriving Repr, DecidableEq

/-- `$set: updates` of `updateMany` on one document.  `"tags"` is not a
schema path, so strict mode strips that entry; `completedAt` is never among
the entries. -/
def applyBulkSet (u : BulkUpdates) (w : WorkItem) : WorkItem :=
  { w with
    status := u.status.getD w.status
    priority := u.priority.getD w.priority
    assignedTo := match u.assignedTo with | some s => some s | none => w.assignedTo
    assigneeModel := match u.assigneeModel with | some s => some s | none => w.assigneeModel
    tags := w.tags }

/-- The in-place replacement of a truthy `assignedTo` entry of the bulk
`updates` object after its email resolved (service lines 451–467). -/
def resolveBulkAssignee (dir : List Admin) (u : BulkUpdates) : BulkUpdates :=
  if strTruthy u.assignedTo then
    { u with
      assignedTo := (adminFindByEmail dir (u.assignedTo.getD "")).map (fun a => a.id)
      assigneeModel := some "Admin" }
  else u

/-- The `{message, modifiedCount}` result of `bulkUpdateWorkItems`. -/
structure BulkResult where
  message : String
  modifiedCount : Nat
deriving Repr, DecidableEq

/-- `WorkItemService.bulkUpdateWorkItems` (service lines 437–496): empty-ids
guard, allow-list copy, assignee resolution (before the empty-updates guard),
empty-updates guard, enum re-validation, then `updateMany({ _id: { $in:
ids }, isActive: true }, { $set: updates })`.  `modifiedCount` counts the
matched documents the `$set` actually changed.  As in the single update, the
only unresolved `assignedTo` value that can reach the `$set` is the falsy
`""`, whose ObjectId cast fails. -/
def bulkUpdateWorkItems (dir : List Admin) (ids : List String)
    (updateData : BulkUpdateInput) (db : List WorkItem) :
    Except String (BulkResult × List WorkItem) :=
  if ids.isEmpty then .error "No work item IDs provided"
  else
    let u0 : BulkUpdates :=
      { status := updateData.status
        priority := updateData.priority
        assignedTo := updateData.assignedTo
        assigneeModel := none
        tags := updateData.tags }
    if strTruthy u0.assignedTo && !(emailRegexTest (u0.assignedTo.getD "")) then
      .error "assignedTo must be a valid email address"
    else if strTruthy u0.assignedTo && (adminFindByEmail dir (u0.assignedTo.getD "")).isNone then
      .error ("User with email " ++ u0.assignedTo.getD "" ++ " does not exist")
    else
      let u1 := resolveBulkAssignee dir u0
      if u1.status.isNone && u1.priority.isNone && u1.assignedTo.isNone && u1.tags.isNone then
        .error "No valid update fields provided"
      else if strTruthy u1.status && !(validStatuses.contains (u1.status.getD "")) then
        .error "Invalid status"
      else if strTruthy u1.priority && !(validPriorities.contains (u1.priority.getD "")) then
        .error "Invalid priority"
      else if u1.assignedTo == some "" then
        .error "Cast to ObjectId failed"
      else
        .ok ({ message := "Work items bulk updated successfully"
               modifiedCount := (db.filter (fun w =>
                 ids.contains w.id && w.isActive && applyBulkSet u1 w != w)).length },
             db.map (fun w => if ids.contains w.id && w.isActive then applyBulkSet u1 w else w))

/-! ## Helper lemmas about the embedded operations -/

theorem resolveUpdatesAssignee_title (dir : List Admin) (u : Updates) :
    (resolveUpdatesAssignee dir u).title = u.title := by
  unfold resolveUpdatesAssignee; split <;> rfl

theorem resolveUpdatesAssignee_description (dir : List Admin) (u : Updates) :
    (resolveUpdatesAssignee dir u).description = u.description := by
  unfold resolveUpdatesAssignee; split <;> rfl

theorem resolveUpdatesAssignee_status (dir : List Admin) (u : Updates) :
    (resolveUpdatesAssignee dir u).status = u.status := by
  unfold resolveUpdatesAssignee; split <;> rfl

theorem resolveUpdatesAssignee_priority (dir : List Admin) (u : Updates) :
    (resolveUpdatesAssignee dir u).priority = u.priority := by
  unfold resolveUpdatesAssignee; split <;> rfl

theorem resolveUpdatesAssignee_dueDate (dir : List Admin) (u : Updates) :
    (resolveUpdatesAssignee dir u).dueDate = u.dueDate := by
  unfold resolveUpdatesAssignee; split <;> rfl

theorem resolveUpdatesAssignee_completedAt (dir : List Admin) (u : Updates) :
    (resolveUpdatesAssignee dir u).completedAt = u.completedAt := by
  unfold resolveUpdatesAssignee; split <;> rfl

theorem deriveCompletedAt_title (now : Int) (old : String) (u : Updates) :
    (deriveCompletedAt now old u).title = u.title := by
  unfold deriveCompletedAt; dsimp only; split <;> split <;> rfl

theorem deriveCompletedAt_description (now : Int) (old : String) (u : Updates) :
    (deriveCompletedAt now old u).description = u.description := by
  unfold deriveCompletedAt; dsimp only; split <;> split <;> rfl

theorem deriveCompletedAt_status (now : Int) (old : String) (u : Updates) :
    (deriveCompletedAt now old u).status = u.status := by
  unfold deriveCompletedAt; dsimp only; split <;> split <;> rfl

theorem deriveCompletedAt_priority (now : Int) (old : String) (u : Updates) :
    (deriveCompletedAt now old u).priority = u.priority := by
  unfold deriveCompletedAt; dsimp only; split <;> split <;> rfl

theorem deriveCompletedAt_dueDate (now : Int) (old : String) (u : Updates) :
    (deriveCompletedAt now old u).dueDate = u.dueDate := by
  unfold deriveCompletedAt; dsimp only; split <;> split <;> rfl

/-- The value the `completedAt` derivation leaves in the `updates` object. -/
theorem deriveCompletedAt_completedAt (now : Int) (old : String) (u : Updates) :
    (deriveCompletedAt now old u).completedAt =
      if u.status == some "completed" && old != "completed" then some (some now)
      else if strTruthy u.status && u.status != some "completed" && old == "completed" then
        some none
      else u.completedAt := by
  unfold deriveCompletedAt
  dsimp only
  by_cases hA : (u.status == some "completed" && old != "completed") = true
  · simp only [hA, if_true]
    have : (u.status != some "completed") = false := by
      have := (Bool.and_eq_true _ _).mp hA
      simp only [bne, Bool.not_eq_false'] at this ⊢
      exact this.1
    simp [this]
  · simp only [Bool.not_eq_true] at hA
    simp only [hA, Bool.false_eq_true, if_false]
    split <;> rfl

/-- What a successful `$set`-path validation guarantees about the updated
document. -/
theorem validateSetPaths_ok {u : Updates} {w : WorkItem} {v : Unit}
    (h : validateSetPaths u w = .ok v) :
    (u.title.isSome = true → 3 ≤ w.title.length ∧ w.title.length ≤ 100) ∧
    (u.description.isSome = true → 10 ≤ w.description.length ∧ w.description.length ≤ 500) ∧
    (u.status.isSome = true → validStatuses.contains w.status = true) ∧
    (u.priority.isSome = true → validPriorities.contains w.priority = true) := by
  unfold validateSetPaths at h
  split_ifs at h with h1 h2 h3 h4 h5 h6
  simp only [Bool.and_eq_true, decide_eq_true_eq, not_and, Bool.not_eq_true,
    Bool.not_eq_true'] at h1 h2 h3 h4 h5 h6
  refine ⟨fun ht => ⟨?_, ?_⟩, fun hd => ⟨?_, ?_⟩, fun hs => ?_, fun hp => ?_⟩
  · have := h1 ht; omega
  · have := h2 ht; omega
  · have := h3 hd; omega
  · have := h4 hd; omega
  · have := h5 hs
    rcases Bool.eq_false_or_eq_true (validStatuses.contains w.status) with hc | hc
    · exact hc
    · exact absurd hc this
  · have := h6 hp
    rcases Bool.eq_false_or_eq_true (validPriorities.contains w.priority) with hc | hc
    · exact hc
    · exact absurd hc this

/-- What a successful save-time validation guarantees about the document. -/
theorem validateWorkItemDoc_ok {w : WorkItem} {v : Unit}
    (h : validateWorkItemDoc w = .ok v) :
    3 ≤ w.title.length ∧ w.title.length ≤ 100 ∧
    10 ≤ w.description.length ∧ w.description.length ≤ 500 ∧
    validStatuses.contains w.status = true ∧
    validPriorities.contains w.priority = true := by
  unfold validateWorkItemDoc at h
  split_ifs at h with h1 h2 h3 h4 h5 h6
  simp only [Bool.not_eq_true, Bool.not_eq_true'] at h5 h6
  refine ⟨by omega, by omega, by omega, by omega, ?_, ?_⟩
  · rcases Bool.eq_false_or_eq_true (validStatuses.contains w.status) with hc | hc
    · exact hc
    · exact absurd hc h5
  · rcases Bool.eq_false_or_eq_true (validPriorities.contains w.priority) with hc | hc
    · exact hc
    · exact absurd hc h6

/-- Inversion of a successful repository update. -/
theorem updateWorkItemRepo_ok {db : List WorkItem} {id : String} {u : Updates}
    {w' : WorkItem} {db' : List WorkItem}
    (h : updateWorkItemRepo db id u = .ok (w', db')) :
    ∃ w, findWorkItemById db id = some w ∧
      w' = applyUpdates u w ∧
      (∃ v, validateSetPaths u (applyUpdates u w) = .ok v) ∧
      db' = db.map (fun x => if x.id == id then applyUpdates u x else x) := by
  unfold updateWorkItemRepo at h
  cases hf : findWorkItemById db id with
  | none => rw [hf] at h; exact Except.noConfusion h
  | some w =>
    rw [hf] at h
    dsimp only at h
    split at h
    · exact Except.noConfusion h
    · split at h
      · exact Except.noConfusion h
      · split at h
        · exact Except.noConfusion h
        · rename_i hval
          injection h with h
          injection h with hw hdb
          exact ⟨w, rfl, hw.symm, ⟨_, hval⟩, hdb.symm⟩

/-- The fully processed `updates` object `updateWorkItem` hands to the
repository: allow-list copy, assignee resolution, `completedAt` derivation. -/
def effectiveUpdates (dir : List Admin) (now : Int) (oldStatus : String)
    (patch : UpdateInput) : Updates :=
  deriveCompletedAt now oldStatus (resolveUpdatesAssignee dir (buildUpdates patch))

/-- Inversion of a successful service update. -/
theorem updateWorkItem_ok {dir : List Admin} {now : Int} {db : List WorkItem}
    {id : String} {patch : UpdateInput} {w' : WorkItem} {db' : List WorkItem}
    (h : updateWorkItem dir now db id patch = .ok (w', db')) :
    ∃ w, findWorkItemById db id = some w ∧
      w' = applyUpdates (effectiveUpdates dir now w.status patch) w ∧
      (∃ v, validateSetPaths (effectiveUpdates dir now w.status patch) w' = .ok v) ∧
      db' = db.map (fun x => if x.id == id then
              applyUpdates (effectiveUpdates dir now w.status patch) x else x) := by
  unfold updateWorkItem at h
  cases hf : findWorkItemById db id with
  | none => rw [hf] at h; exact Except.noConfusion h
  | some w =>
    rw [hf] at h
    dsimp only at h
    split at h
    · exact Except.noConfusion h
    · split at h
      · exact Except.noConfusion h
      · split at h
        · exact Except.noConfusion h
        · split at h
          · exact Except.noConfusion h
          · obtain ⟨w0, hf0, hw', hv, hdb⟩ := updateWorkItemRepo_ok h
            rw [hf] at hf0
            injection hf0 with hww
            subst hww
            obtain ⟨v, hv⟩ := hv
            refine ⟨w, rfl, hw', ⟨v, ?_⟩, hdb⟩
            rw [hw']
            exact hv

/-- Inversion of a successful create. -/
theorem createWorkItem_ok {dir : List Admin} {now : Int} {newId : String}
    {createdAt : Int} {data : CreateInput} {createdById : String}
    {db : List WorkItem} {w : WorkItem} {db' : List WorkItem}
    (h : createWorkItem dir now newId createdAt data createdById db = .ok (w, db')) :
    w = buildNewWorkItem newId createdAt data createdById
          (if strTruthy data.assignedTo then adminFindByEmail dir (data.assignedTo.getD "")
           else none)
    ∧ (∃ v, validateWorkItemDoc w = .ok v)
    ∧ db' = db ++ [w] := by
  unfold createWorkItem at h
  split_ifs at h with h1 h2 h3 h4 h5 h6 h7 h8 h9
  · rw [if_pos h9]
    unfold saveNewWorkItem at h
    split at h
    · exact Except.noConfusion h
    · rename_i hval
      injection h with h
      injection h with hw hdb
      subst hw
      exact ⟨rfl, ⟨_, hval⟩, hdb.symm⟩
  · rw [if_neg h9]
    unfold saveNewWorkItem at h
    split at h
    · exact Except.noConfusion h
    · rename_i hval
      injection h with h
      injection h with hw hdb
      subst hw
      exact ⟨rfl, ⟨_, hval⟩, hdb.symm⟩

/-- Inversion of a successful soft delete. -/
theorem deleteWorkItem_ok {db : List WorkItem} {id : String} {msg : String}
    {db' : List WorkItem}
    (h : deleteWorkItem db id = .ok (msg, db')) :
    ∃ w, findWorkItemById db id = some w ∧
      msg = "Work item deleted successfully" ∧
      db' = db.map (fun x => if x.id == id then { x with isActive := false } else x) := by
  unfold deleteWorkItem at h
  cases hf : findWorkItemById db id with
  | none => rw [hf] at h; exact Except.noConfusion h
  | some w =>
    rw [hf] at h
    dsimp only at h
    unfold deleteWorkItemRepo at h
    rw [hf] at h
    dsimp only at h
    injection h with h
    injection h with hmsg hdb
    exact ⟨w, rfl, hmsg.symm, hdb.symm⟩

/-- `find?` by id over a collection rewritten by an id-preserving map. -/
theorem findWorkItemById_map (db : List WorkItem) (id : String)
    (f : WorkItem → WorkItem) (hf : ∀ x, (f x).id = x.id) :
    findWorkItemById (db.map f) id = (findWorkItemById db id).map f := by
  unfold findWorkItemById
  rw [List.find?_map]
  have hco : ((fun w : WorkItem => w.id == id) ∘ f) = (fun w : WorkItem => w.id == id) := by
    funext x
    simp [Function.comp, hf]
  rw [hco]

/-! ## Concrete fixtures -/

/-- An active directory identity. -/
def adaAdmin : Admin :=
  { id := "adm1", firstName := "Ada", lastName := "Lovelace",
    email := "ada@x.com", isActive := true }

/-- A directory holding one active identity. -/
def fixtureDir : List Admin := [adaAdmin]

/-- A create payload that includes a tags array. -/
def fixtureCreateInput : CreateInput :=
  { title := some "Fix login bug"
    description := some "The login endpoint rejects valid tokens"
    tags := some ["urgent", "backend"] }

/-- The document `createWorkItem fixtureDir 0 "w1" 0 fixtureCreateInput
"adm1" []` stores. -/
def fixtureItem : WorkItem :=
  { id := "w1", title := "Fix login bug",
    description := "The login endpoint rejects valid tokens",
    status := "pending", priority := "medium", createdBy := "adm1",
    creatorModel := "Admin", assignedTo := none, assigneeModel := none,
    tags := none, dueDate := none, completedAt := none, isActive := true,
    createdAt := 0 }

/-- `fixtureItem` after the soft delete. -/
def fixtureItemDeleted : WorkItem := { fixtureItem with isActive := false }

/-! ## Claims -/

/-- **C1.**  The claim says a create whose input includes a tags array stores
exactly those tags, and a tags-filtered list returns exactly the active items
having one of the tags.  On the code, `workItemSchema` declares no `tags`
path, so the strict-mode insert drops the service's `tags` entry: at the
failing input the create succeeds but the stored document carries no tags,
and the tags-filtered list over the collection holding that item returns no
items at all. -/
theorem c1_tags_dropped :
    createWorkItem fixtureDir 0 "w1" 0 fixtureCreateInput "adm1" [] =
      .ok (fixtureItem, [fixtureItem])
    ∧ fixtureCreateInput.tags = some ["urgent", "backend"]
    ∧ fixtureItem.tags = none
    ∧ getAllWorkItems fixtureDir { tags := some ["urgent"] } {} [fixtureItem] =
        .ok ([], { total := 0, page := 1, pages := 0, limit := 10 }) :=
  ⟨rfl, rfl, rfl, rfl⟩

/-- **C2 (counterexample).**  The claim says a successful soft delete makes a
subsequent `getById` fail with "not found".  On the code, `findWorkItemById`
is a plain `findById` with no `isActive` condition, so after the delete the
fetch still succeeds: at this concrete input the deleted item is returned
(with `isActive = false`) instead of an error. -/
theorem c2_counterexample :
    deleteWorkItem [fixtureItem] "w1" =
      .ok ("Work item deleted successfully", [fixtureItemDeleted])
    ∧ getWorkItemById fixtureDir [fixtureItemDeleted] "w1" =
        .ok (formatWorkItem fixtureDir fixtureItemDeleted)
    ∧ getWorkItemById fixtureDir [fixtureItemDeleted] "w1" ≠
        .error "Work item not found" := by
  refine ⟨rfl, rfl, ?_⟩
  intro h
  exact Except.noConfusion
    ((show getWorkItemById fixtureDir [fixtureItemDeleted] "w1" =
        .ok (formatWorkItem fixtureDir fixtureItemDeleted) from rfl).symm.trans h)

/-- **C2 (amended).**  After a successful soft delete, a subsequent `getById`
with the item's id still SUCCEEDS, returning the item with `isActive = false`:
soft-deleted items are excluded from default listings (via the `isActive:
true` list filter) but not from the direct fetch by id. -/
theorem c2_softdeleted_still_fetchable (dir : List Admin) (db db' : List WorkItem)
    (id msg : String)
    (h : deleteWorkItem db id = .ok (msg, db')) :
    ∃ w, findWorkItemById db id = some w ∧
      getWorkItemById dir db' id =
        .ok (formatWorkItem dir { w with isActive := false }) ∧
      ({ w with isActive := false } : WorkItem).isActive = false := by
  obtain ⟨w, hf, _, hdb⟩ := deleteWorkItem_ok h
  have hf' : List.find? (fun x : WorkItem => x.id == id) db = some w := hf
  have hid : (w.id == id) = true :=
    @List.find?_some WorkItem (fun x : WorkItem => x.id == id) w db hf'
  refine ⟨w, hf, ?_, rfl⟩
  unfold getWorkItemById
  rw [hdb, findWorkItemById_map db id _ (fun x => by split <;> rfl), hf,
    Option.map_some']
  dsimp only
  rw [if_pos hid]

/-- Witness for C2: the amended statement at the concrete one-item collection. -/
theorem c2_softdeleted_still_fetchable_witness :
    getWorkItemById fixtureDir [fixtureItemDeleted] "w1" =
      .ok (formatWorkItem fixtureDir fixtureItemDeleted) ∧
    fixtureItemDeleted.isActive = false := by
  obtain ⟨w, hf, hok, _⟩ :=
    c2_softdeleted_still_fetchable fixtureDir [fixtureItem] [fixtureItemDeleted]
      "w1" "Work item deleted successfully" rfl
  have hw : w = fixtureItem := by
    have h2 : some fixtureItem = some w := (show findWorkItemById [fixtureItem] "w1" = some fixtureItem from rfl).symm.trans hf
    injection h2 with h2
    exact h2.symm
  subst hw
  exact ⟨hok, rfl⟩

/-- **C3 (counterexample).**  The claim says an update whose `dueDate` parses
to a date earlier than now fails with "Due date cannot be in the past" and
leaves the item unchanged.  On the code, `updateWorkItem` performs no due-date
check at all: at this concrete input (item "w1", patch `dueDate = 50`, now =
100) the update succeeds and stores the past date. -/
theorem c3_counterexample :
    updateWorkItem fixtureDir 100 [fixtureItem] "w1" { dueDate := some (some 50) } =
      .ok ({ fixtureItem with dueDate := some 50 },
           [{ fixtureItem with dueDate := some 50 }])
    ∧ (50 : Int) < 100
    ∧ updateWorkItem fixtureDir 100 [fixtureItem] "w1" { dueDate := some (some 50) } ≠
        .error "Due date cannot be in the past" := by
  refine ⟨rfl, by norm_num, ?_⟩
  intro h
  exact Except.noConfusion
    ((show updateWorkItem fixtureDir 100 [fixtureItem] "w1" { dueDate := some (some 50) } =
        .ok ({ fixtureItem with dueDate := some 50 },
             [{ fixtureItem with dueDate := some 50 }]) from rfl).symm.trans h)

/-- **C3 (amended).**  The past-due-date check exists only on the create path.
For every existing item, an update patch that only supplies a `dueDate`
parsing to a date earlier than now SUCCEEDS and stores the past date
unchanged. -/
theorem c3_update_accepts_past_dueDate (dir : List Admin) (now : Int)
    (db : List WorkItem) (id : String) (w : WorkItem) (t : Int)
    (hfind : findWorkItemById db id = some w)
    (hpast : t < now) :
    updateWorkItem dir now db id { dueDate := some (some t) } =
      .ok ({ w with dueDate := some t },
           db.map (fun x => if x.id == id then { x with dueDate := some t } else x)) := by
  unfold updateWorkItem updateWorkItemRepo
  rw [hfind]
  rfl

/-- Witness for C3: the amended statement at the concrete one-item collection. -/
theorem c3_update_accepts_past_dueDate_witness :
    (50 : Int) < 100 ∧
    updateWorkItem fixtureDir 100 [fixtureItem] "w1" { dueDate := some (some 50) } =
      .ok ({ fixtureItem with dueDate := some 50 },
           [fixtureItem].map (fun x => if x.id == "w1" then { x with dueDate := some 50 } else x)) :=
  ⟨by norm_num,
   c3_update_accepts_past_dueDate fixtureDir 100 [fixtureItem] "w1" fixtureItem 50
     rfl (by norm_num)⟩

/-- **C4.**  For every successful update containing a status: transitioning
into `completed` from a non-completed status sets `completedAt` to now;
a status transition out of `completed` clears it to null; a transition
between two non-completed statuses, or a patch without a status, leaves it
unchanged. -/
theorem c4_completedAt_derivation (dir : List Admin) (now : Int)
    (db db' : List WorkItem) (id : String) (patch : UpdateInput)
    (w w' : WorkItem)
    (hfind : findWorkItemById db id = some w)
    (hok : updateWorkItem dir now db id patch = .ok (w', db')) :
    ((patch.status = some "completed" ∧ w.status ≠ "completed") →
        w'.completedAt = some now)
    ∧ (∀ s, patch.status = some s → s ≠ "completed" → w.status = "completed" →
        w'.completedAt = none)
    ∧ ((patch.status = none ∨
        (∃ s, patch.status = some s ∧ s ≠ "completed" ∧ w.status ≠ "completed")) →
        w'.completedAt = w.completedAt) := by
  obtain ⟨w0, hf0, hw', hv, _⟩ := updateWorkItem_ok hok
  rw [hfind] at hf0
  injection hf0 with hww
  subst hww
  have hstat : (effectiveUpdates dir now w.status patch).status = patch.status := by
    unfold effectiveUpdates
    rw [deriveCompletedAt_status, resolveUpdatesAssignee_status]
    rfl
  have hca : (effectiveUpdates dir now w.status patch).completedAt =
      (if patch.status == some "completed" && w.status != "completed" then
        some (some now)
       else if strTruthy patch.status && patch.status != some "completed" &&
           w.status == "completed" then some none
       else none) := by
    unfold effectiveUpdates
    rw [deriveCompletedAt_completedAt, resolveUpdatesAssignee_status,
      resolveUpdatesAssignee_completedAt]
    rfl
  have hwc' : w'.completedAt =
      (match (effectiveUpdates dir now w.status patch).completedAt with
       | some c => c
       | none => w.completedAt) := by
    rw [hw']
    rfl
  refine ⟨?_, ?_, ?_⟩
  · rintro ⟨hps, hws⟩
    have hb : (w.status != "completed") = true := bne_iff_ne.mpr hws
    rw [hwc', hca, hps, hb]
    rfl
  · rintro s hs hsc hwcomp
    obtain ⟨v, hv⟩ := hv
    have hvs := (validateSetPaths_ok hv).2.2.1
    have hus : (effectiveUpdates dir now w.status patch).status = some s := by
      rw [hstat, hs]
    have hsomes : (effectiveUpdates dir now w.status patch).status.isSome = true := by
      rw [hus]; rfl
    have hcontains := hvs hsomes
    have hws' : w'.status = s := by
      rw [hw']
      show (effectiveUpdates dir now w.status patch).status.getD w.status = s
      rw [hus]; rfl
    rw [hws'] at hcontains
    have hsne : s ≠ "" := by
      intro hse; subst hse; exact absurd hcontains (by decide)
    have hb1 : ((some s : Option String) == some "completed") = false :=
      beq_eq_false_iff_ne.mpr (fun hcc => hsc (Option.some.inj hcc))
    have hb2 : strTruthy (some s) = true := by simp [strTruthy, hsne]
    have hb3 : ((some s : Option String) != some "completed") = true := by
      show (!((some s : Option String) == some "completed")) = true
      rw [hb1]
      rfl
    have hb4 : (w.status == "completed") = true := beq_iff_eq.mpr hwcomp
    rw [hwc', hca, hs, hb1, hb2, hb3, hb4]
    rfl
  · rintro (hnone | ⟨s, hs, hsc, hwsc⟩)
    · rw [hwc', hca, hnone]
      rfl
    · have hb1 : ((some s : Option String) == some "completed") = false :=
        beq_eq_false_iff_ne.mpr (fun hcc => hsc (Option.some.inj hcc))
      have hb4 : (w.status == "completed") = false := beq_eq_false_iff_ne.mpr hwsc
      rw [hwc', hca, hs, hb1, hb4, Bool.false_and, Bool.and_false]
      rfl

/-- The document produced by completing `fixtureItem` at time 77. -/
def c4ResultItem : WorkItem :=
  { fixtureItem with status := "completed", completedAt := some 77 }

/-- Witness for C4: completing the pending fixture item at now = 77 stamps
`completedAt = 77`. -/
theorem c4_completedAt_derivation_witness :
    c4ResultItem.completedAt = some 77 :=
  (c4_completedAt_derivation fixtureDir 77 [fixtureItem] [c4ResultItem] "w1"
      { status := some "completed" } fixtureItem c4ResultItem rfl rfl).1
    ⟨rfl, by decide⟩

theorem effectiveUpdates_title (dir : List Admin) (now : Int) (old : String)
    (patch : UpdateInput) :
    (effectiveUpdates dir now old patch).title = patch.title := by
  unfold effectiveUpdates
  rw [deriveCompletedAt_title, resolveUpdatesAssignee_title]
  rfl

theorem effectiveUpdates_description (dir : List Admin) (now : Int) (old : String)
    (patch : UpdateInput) :
    (effectiveUpdates dir now old patch).description = patch.description := by
  unfold effectiveUpdates
  rw [deriveCompletedAt_description, resolveUpdatesAssignee_description]
  rfl

/-- **C5.**  Length invariants: every work item accepted by create or update
has trimmed title length in [3,100] and trimmed description length in
[10,500] (the stored values are the trimmed ones); on create, an input whose
trimmed title or description violates a bound is rejected with an error (no
document is appended); on update, a patch supplying a violating title or
description is rejected (the invariant is preserved from the pre-state for
fields the patch does not touch). -/
theorem c5_length_invariants :
    (∀ dir now newId createdAt (data : CreateInput) createdById db w db',
      createWorkItem dir now newId createdAt data createdById db = .ok (w, db') →
        (3 ≤ w.title.length ∧ w.title.length ≤ 100 ∧
         10 ≤ w.description.length ∧ w.description.length ≤ 500))
    ∧ (∀ dir now newId createdAt (data : CreateInput) createdById db,
        ((jsTrim (data.title.getD "")).length < 3 ∨
         100 < (jsTrim (data.title.getD "")).length ∨
         (jsTrim (data.description.getD "")).length < 10 ∨
         500 < (jsTrim (data.description.getD "")).length) →
        ∀ r, createWorkItem dir now newId createdAt data createdById db ≠ .ok r)
    ∧ (∀ dir now db id (patch : UpdateInput) w w' db',
        findWorkItemById db id = some w →
        updateWorkItem dir now db id patch = .ok (w', db') →
        (3 ≤ w.title.length ∧ w.title.length ≤ 100 ∧
         10 ≤ w.description.length ∧ w.description.length ≤ 500) →
        (3 ≤ w'.title.length ∧ w'.title.length ≤ 100 ∧
         10 ≤ w'.description.length ∧ w'.description.length ≤ 500))
    ∧ (∀ dir now db id (patch : UpdateInput) s,
        ((patch.title = some s ∧ ((jsTrim s).length < 3 ∨ 100 < (jsTrim s).length)) ∨
         (patch.description = some s ∧ ((jsTrim s).length < 10 ∨ 500 < (jsTrim s).length))) →
        ∀ r, updateWorkItem dir now db id patch ≠ .ok r) := by
  refine ⟨?_, ?_, ?_, ?_⟩
  · intro dir now newId createdAt data createdById db w db' h
    obtain ⟨-, ⟨v, hv⟩, -⟩ := createWorkItem_ok h
    obtain ⟨h1, h2, h3, h4, -, -⟩ := validateWorkItemDoc_ok hv
    exact ⟨h1, h2, h3, h4⟩
  · intro dir now newId createdAt data createdById db hviol r h
    obtain ⟨w, db'⟩ := r
    obtain ⟨hw, ⟨v, hv⟩, -⟩ := createWorkItem_ok h
    obtain ⟨h1, h2, h3, h4, -, -⟩ := validateWorkItemDoc_ok hv
    have ht : w.title = jsTrim (data.title.getD "") := by rw [hw]; rfl
    have hd : w.description = jsTrim (data.description.getD "") := by rw [hw]; rfl
    rw [ht] at h1 h2
    rw [hd] at h3 h4
    rcases hviol with hv1 | hv1 | hv1 | hv1 <;> omega
  · intro dir now db id patch w w' db' hfind hok hpre
    obtain ⟨w0, hf0, hw', ⟨v, hv⟩, -⟩ := updateWorkItem_ok hok
    rw [hfind] at hf0
    injection hf0 with hww
    subst hww
    obtain ⟨hT, hD, -, -⟩ := validateSetPaths_ok hv
    have htitle : 3 ≤ w'.title.length ∧ w'.title.length ≤ 100 := by
      cases hpt : patch.title with
      | some s =>
        apply hT
        rw [effectiveUpdates_title, hpt]
        rfl
      | none =>
        have hsame : w'.title = w.title := by
          rw [hw']
          show (match (effectiveUpdates dir now w.status patch).title with
                | some s => jsTrim s
                | none => w.title) = w.title
          rw [effectiveUpdates_title, hpt]
        rw [hsame]
        exact ⟨hpre.1, hpre.2.1⟩
    have hdesc : 10 ≤ w'.description.length ∧ w'.description.length ≤ 500 := by
      cases hpd : patch.description with
      | some s =>
        apply hD
        rw [effectiveUpdates_description, hpd]
        rfl
      | none =>
        have hsame : w'.description = w.description := by
          rw [hw']
          show (match (effectiveUpdates dir now w.status patch).description with
                | some s => jsTrim s
                | none => w.description) = w.description
          rw [effectiveUpdates_description, hpd]
        rw [hsame]
        exact ⟨hpre.2.2.1, hpre.2.2.2⟩
    exact ⟨htitle.1, htitle.2, hdesc.1, hdesc.2⟩
  · intro dir now db id patch s hcase r h
    obtain ⟨w', db'⟩ := r
    obtain ⟨w0, hf0, hw', ⟨v, hv⟩, -⟩ := updateWorkItem_ok h
    obtain ⟨hT, hD, -, -⟩ := validateSetPaths_ok hv
    rcases hcase with ⟨hpt, hbad⟩ | ⟨hpd, hbad⟩
    · have hsome : (effectiveUpdates dir now w0.status patch).title.isSome = true := by
        rw [effectiveUpdates_title, hpt]
        rfl
      have hb := hT hsome
      have hval : w'.title = jsTrim s := by
        rw [hw']
        show (match (effectiveUpdates dir now w0.status patch).title with
              | some s => jsTrim s
              | none => w0.title) = jsTrim s
        rw [effectiveUpdates_title, hpt]
      rw [hval] at hb
      rcases hbad with hbad | hbad <;> omega
    · have hsome : (effectiveUpdates dir now w0.status patch).description.isSome = true := by
        rw [effectiveUpdates_description, hpd]
        rfl
      have hb := hD hsome
      have hval : w'.description = jsTrim s := by
        rw [hw']
        show (match (effectiveUpdates dir now w0.status patch).description with
              | some s => jsTrim s
              | none => w0.description) = jsTrim s
        rw [effectiveUpdates_description, hpd]
      rw [hval] at hb
      rcases hbad with hbad | hbad <;> omega

/-- Witness for C5: the invariant conjunct evaluated at the concrete create
of the fixture item, plus the rejection conjunct at a 2-character title. -/
theorem c5_length_invariants_witness :
    (3 ≤ fixtureItem.title.length ∧ fixtureItem.title.length ≤ 100 ∧
     10 ≤ fixtureItem.description.length ∧ fixtureItem.description.length ≤ 500) ∧
    (∀ r, createWorkItem fixtureDir 0 "w2" 0
        { fixtureCreateInput with title := some " ab " } "adm1" [] ≠ .ok r) :=
  ⟨c5_length_invariants.1 fixtureDir 0 "w1" 0 fixtureCreateInput "adm1" []
      fixtureItem [fixtureItem] rfl,
   c5_length_invariants.2.1 fixtureDir 0 "w2" 0
      { fixtureCreateInput with title := some " ab " } "adm1" []
      (Or.inl (by decide))⟩

/-- Rule "title" of the fail-fast order (service lines 58–60). -/
def titleRuleError (data : CreateInput) : Option String :=
  if !strTruthy data.title || (jsTrim (data.title.getD "")).length < 3 then
    some "Title must be at least 3 characters long"
  else none

/-- Rule "description" (service lines 62–64). -/
def descriptionRuleError (data : CreateInput) : Option String :=
  if !strTruthy data.description || (jsTrim (data.description.getD "")).length < 10 then
    some "Description must be at least 10 characters long"
  else none

/-- Rule "priority" (service lines 66–71). -/
def priorityRuleError (data : CreateInput) : Option String :=
  if strTruthy data.priority && !(validPriorities.contains (data.priority.getD "")) then
    some "Invalid priority. Must be one of: low, medium, high, urgent"
  else none

/-- Rule "status" (service lines 73–78). -/
def statusRuleError (data : CreateInput) : Option String :=
  if strTruthy data.status && !(validStatuses.contains (data.status.getD "")) then
    some "Invalid status. Must be one of: pending, in_progress, completed, cancelled"
  else none

/-- Rule "assignedTo shape" (service lines 86–89). -/
def assignedToShapeRuleError (data : CreateInput) : Option String :=
  if strTruthy data.assignedTo && !(emailRegexTest (data.assignedTo.getD "")) then
    some "assignedTo must be a valid email address"
  else none

/-- Rule "assignedTo existence" (service lines 91–94). -/
def assignedToExistenceRuleError (dir : List Admin) (data : CreateInput) : Option String :=
  if strTruthy data.assignedTo && (adminFindByEmail dir (data.assignedTo.getD "")).isNone then
    some ("User with email " ++ data.assignedTo.getD "" ++ " does not exist")
  else none

/-- Rule "dueDate" (service lines 98–106): parse failure, then past date. -/
def dueDateRuleError (now : Int) (data : CreateInput) : Option String :=
  if data.dueDate == some none then some "Invalid due date format"
  else if dueDatePast now data.dueDate then some "Due date cannot be in the past"
  else none

/-- The first failing rule of the claim's fail-fast order
title → description → priority → status → assignedTo shape → assignedTo
existence → dueDate (spec-side formulation for C6). -/
def specCreateFirstFailure (dir : List Admin) (now : Int) (data : CreateInput) :
    Option String :=
  [titleRuleError data, descriptionRuleError data, priorityRuleError data,
   statusRuleError data, assignedToShapeRuleError data,
   assignedToExistenceRuleError dir data, dueDateRuleError now data].findSome? id

set_option maxHeartbeats 1600000 in
/-- **C6.**  Create is fail-fast in the claimed rule order: whenever some rule
fails, `createWorkItem` raises exactly the error of the FIRST failing rule in
the order title → description → priority → status → assignedTo shape →
assignedTo existence → dueDate, and returns no document (nothing is
persisted). -/
theorem c6_create_fail_fast (dir : List Admin) (now : Int) (newId : String)
    (createdAt : Int) (data : CreateInput) (createdById : String)
    (db : List WorkItem) (e : String)
    (h : specCreateFirstFailure dir now data = some e) :
    createWorkItem dir now newId createdAt data createdById db = .error e := by
  unfold specCreateFirstFailure at h
  simp only [List.findSome?, id] at h
  unfold titleRuleError descriptionRuleError priorityRuleError statusRuleError
    assignedToShapeRuleError assignedToExistenceRuleError dueDateRuleError at h
  unfold createWorkItem
  split_ifs at h ⊢ <;> simp_all

/-- A create input violating three rules at once (title, description,
priority). -/
def c6Input : CreateInput :=
  { title := some "ab", description := some "short", priority := some "extreme" }

/-- Witness for C6: on `c6Input` the first failing rule is the title rule and
create raises exactly that error. -/
theorem c6_create_fail_fast_witness :
    specCreateFirstFailure fixtureDir 0 c6Input =
      some "Title must be at least 3 characters long" ∧
    createWorkItem fixtureDir 0 "w9" 0 c6Input "adm1" [] =
      .error "Title must be at least 3 characters long" :=
  ⟨rfl, c6_create_fail_fast fixtureDir 0 "w9" 0 c6Input "adm1" [] _ rfl⟩

/-- Inversion of a successful bulk update. -/
theorem bulkUpdateWorkItems_ok {dir : List Admin} {ids : List String}
    {u : BulkUpdateInput} {db : List WorkItem} {r : BulkResult}
    {db' : List WorkItem}
    (h : bulkUpdateWorkItems dir ids u db = .ok (r, db')) :
    ∃ v : BulkUpdates,
      r.message = "Work items bulk updated successfully" ∧
      r.modifiedCount = (db.filter (fun w =>
        ids.contains w.id && w.isActive && applyBulkSet v w != w)).length ∧
      db' = db.map (fun w =>
        if ids.contains w.id && w.isActive then applyBulkSet v w else w) := by
  unfold bulkUpdateWorkItems at h
  split at h
  · exact Except.noConfusion h
  · dsimp only at h
    split at h
    · exact Except.noConfusion h
    · split at h
      · exact Except.noConfusion h
      · split at h
        · exact Except.noConfusion h
        · split at h
          · exact Except.noConfusion h
          · split at h
            · exact Except.noConfusion h
            · split at h
              · exact Except.noConfusion h
              · injection h with h
                injection h with hr hdb
                exact ⟨_, by rw [← hr], by rw [← hr], hdb.symm⟩

/-- **C7.**  `bulkUpdateWorkItems`: an empty ids list fails with "No work
item IDs provided" whatever the patch; a nonempty ids list with a patch
containing none of the allow-listed fields {status, priority, assignedTo,
tags} fails with "No valid update fields provided"; and every successful
call applies the resolved `$set` exactly to the active documents whose id is
in the given set (all other documents are kept unchanged) and returns the
count of documents the `$set` modified. -/
theorem c7_bulkUpdate_contract :
    (∀ dir (u : BulkUpdateInput) db,
      bulkUpdateWorkItems dir [] u db = .error "No work item IDs provided")
    ∧ (∀ dir ids (u : BulkUpdateInput) db, ids ≠ [] →
        u.status = none → u.priority = none → u.assignedTo = none → u.tags = none →
        bulkUpdateWorkItems dir ids u db = .error "No valid update fields provided")
    ∧ (∀ dir ids (u : BulkUpdateInput) db r db',
        bulkUpdateWorkItems dir ids u db = .ok (r, db') →
        ∃ v : BulkUpdates,
          r.message = "Work items bulk updated successfully" ∧
          r.modifiedCount = (db.filter (fun w =>
            ids.contains w.id && w.isActive && applyBulkSet v w != w)).length ∧
          db' = db.map (fun w =>
            if ids.contains w.id && w.isActive then applyBulkSet v w else w) ∧
          (∀ w ∈ db, ¬(ids.contains w.id = true ∧ w.isActive = true) → w ∈ db')) := by
  refine ⟨?_, ?_, ?_⟩
  · intro dir u db
    rfl
  · intro dir ids u db hne hst hpr has htg
    cases ids with
    | nil => exact absurd rfl hne
    | cons a as =>
      unfold bulkUpdateWorkItems
      rw [hst, hpr, has, htg]
      rfl
  · intro dir ids u db r db' h
    obtain ⟨v, hmsg, hcount, hdb⟩ := bulkUpdateWorkItems_ok h
    refine ⟨v, hmsg, hcount, hdb, ?_⟩
    intro w hw hnot
    have heq : (if ids.contains w.id && w.isActive then applyBulkSet v w else w) = w := by
      rw [if_neg]
      intro hc
      have hc' := Bool.and_eq_true_iff.mp hc
      exact hnot ⟨hc'.1, hc'.2⟩
    rw [hdb]
    exact heq ▸ List.mem_map_of_mem _ hw

/-- Witness for C7: the empty-ids and empty-patch rejections at concrete
inputs. -/
theorem c7_bulkUpdate_contract_witness :
    bulkUpdateWorkItems fixtureDir [] { status := some "completed" } [fixtureItem] =
      .error "No work item IDs provided" ∧
    bulkUpdateWorkItems fixtureDir ["w1"] {} [fixtureItem] =
      .error "No valid update fields provided" :=
  ⟨c7_bulkUpdate_contract.1 fixtureDir { status := some "completed" } [fixtureItem],
   c7_bulkUpdate_contract.2.1 fixtureDir ["w1"] {} [fixtureItem]
     (by decide) rfl rfl rfl rfl⟩

/-- The rate expression, rephrased on the zero test instead of the
positivity test. -/
theorem jsRate_eq (p t : Nat) :
    jsRate p t = if t = 0 then 0 else jsMathRound ((p : Rat) / (t : Rat) * 100) := by
  unfold jsRate jsMathRound
  rcases Nat.eq_zero_or_pos t with h0 | h0
  · rw [if_neg (by omega), if_pos h0]
  · rw [if_pos h0, if_neg (by omega)]
    have harith : (p : Rat) / (t : Rat) * 100 + 1/2
        = ((200 * p + t : Nat) : Rat) / ((2 * t : Nat) : Rat) := by
      have ht : (t : Rat) ≠ 0 := Nat.cast_ne_zero.mpr (by omega)
      push_cast
      field_simp
      ring
    have hfl : Rat.floor (((200 * p + t : Nat) : Rat) / ((2 * t : Nat) : Rat))
        = ⌊((200 * p + t : Nat) : Rat) / ((2 * t : Nat) : Rat)⌋ := rfl
    rw [harith, hfl, Rat.floor_natCast_div_natCast]
    exact (Int.ofNat_tdiv _ _).symm

/-- A zero total always gives a zero rate. -/
theorem jsRate_zero (p t : Nat) (ht : t = 0) : jsRate p t = 0 := by
  unfold jsRate
  rw [ht]
  rfl

/-- **C8.**  `getMyWorkItemStats` fails with "User ID is required" on an
empty userId; on a nonempty userId it returns, over the active items created
by or assigned to the user, `completionRate = round(completed/total*100)` and
`overdueRate = round(overdue/total*100)` (JavaScript `Math.round`, halves
toward +∞), with both rates 0 when the total is 0 — no division by zero. -/
theorem c8_myStats_rates :
    (∀ now db, getMyWorkItemStats now db "" = .error "User ID is required")
    ∧ (∀ now db userId s, getMyWorkItemStats now db userId = .ok s →
        userId ≠ "" ∧
        s.total = (db.filter (fun w =>
          w.isActive && (w.createdBy == userId || w.assignedTo == some userId))).length ∧
        s.completed = (db.filter (fun w =>
          (w.isActive && (w.createdBy == userId || w.assignedTo == some userId)) &&
          w.status == "completed")).length ∧
        s.overdue = (db.filter (fun w =>
          (w.isActive && (w.createdBy == userId || w.assignedTo == some userId)) &&
          overdueCond now w)).length ∧
        s.completionRate = (if s.total = 0 then 0 else
          jsMathRound ((s.completed : Rat) / (s.total : Rat) * 100)) ∧
        s.overdueRate = (if s.total = 0 then 0 else
          jsMathRound ((s.overdue : Rat) / (s.total : Rat) * 100)) ∧
        (s.total = 0 → s.completionRate = 0 ∧ s.overdueRate = 0)) := by
  refine ⟨?_, ?_⟩
  · intro now db
    rfl
  · intro now db userId s h
    unfold getMyWorkItemStats at h
    split at h
    · exact Except.noConfusion h
    · rename_i hcond
      injection h with hs
      subst hs
      have hne : userId ≠ "" := by
        intro he
        exact hcond (by rw [he]; rfl)
      refine ⟨hne, rfl, rfl, rfl, jsRate_eq _ _, jsRate_eq _ _, ?_⟩
      intro h0
      exact ⟨jsRate_zero _ _ h0, jsRate_zero _ _ h0⟩

/-- A two-item collection for the C8 witness: one pending and one completed
item, both created by "adm1". -/
def c8Db : List WorkItem :=
  [fixtureItem, { fixtureItem with id := "w2", status := "completed" }]

/-- What `getMyWorkItemStats 0 c8Db "adm1"` returns. -/
def c8Stats : MyWorkItemStats :=
  { total := 2, pending := 1, inProgress := 0, completed := 1, cancelled := 0,
    overdue := 0, assigned := 0, created := 2, completionRate := 50,
    overdueRate := 0 }

/-- Witness for C8: over two items (one completed) the completion rate is
round(1/2·100) = 50. -/
theorem c8_myStats_rates_witness :
    c8Stats.completionRate =
      (if c8Stats.total = 0 then 0
       else jsMathRound ((c8Stats.completed : Rat) / (c8Stats.total : Rat) * 100)) ∧
    c8Stats.completionRate = 50 :=
  ⟨(c8_myStats_rates.2 0 c8Db "adm1" c8Stats rfl).2.2.2.2.1, rfl⟩

/-- **C9.**  A bulk update never touches `completedAt`: whatever the patch
(including one that sets status to `completed` or moves completed items to
another status), every document's `completedAt` is unchanged — `completedAt`
is not among the allow-listed bulk fields and `updateMany` derives nothing. -/
theorem c9_bulk_preserves_completedAt (dir : List Admin) (ids : List String)
    (u : BulkUpdateInput) (db : List WorkItem) (r : BulkResult)
    (db' : List WorkItem)
    (h : bulkUpdateWorkItems dir ids u db = .ok (r, db')) :
    db'.map (fun w => w.completedAt) = db.map (fun w => w.completedAt) := by
  obtain ⟨v, -, -, hdb⟩ := bulkUpdateWorkItems_ok h
  rw [hdb, List.map_map]
  apply List.map_congr_left
  intro w hw
  show (fun w => w.completedAt)
      (if ids.contains w.id && w.isActive then applyBulkSet v w else w) = w.completedAt
  dsimp only
  split <;> rfl

/-- Witness for C9: bulk-completing the pending fixture item modifies its
status but leaves `completedAt` untouched (still null), unlike the single
update which would stamp it. -/
theorem c9_bulk_preserves_completedAt_witness :
    ([{ fixtureItem with status := "completed" }].map (fun w => w.completedAt)) =
      ([fixtureItem].map (fun w => w.completedAt)) :=
  c9_bulk_preserves_completedAt fixtureDir ["w1"] { status := some "completed" }
    [fixtureItem]
    { message := "Work items bulk updated successfully", modifiedCount := 1 }
    [{ fixtureItem with status := "completed" }] rfl

/-- **C10.**  The stats email lookups require an ACTIVE directory identity
(`Admin.findOne({email, isActive: true})`): for an email whose identity
exists but is inactive, `getWorkItemStats` fails with "User with email
{email} does not exist" for both the `createdBy` and the `assignedTo`
filter, while `getAllWorkItems` resolves the same `assignedTo` email with a
plain `Admin.findOne({email})` and succeeds. -/
theorem c10_stats_active_only_lookup (dir : List Admin) (now : Int)
    (db : List WorkItem) (email : String) (a : Admin)
    (hreg : emailRegexTest email = true)
    (hfound : adminFindByEmail dir email = some a)
    (hinactive : adminFindActiveByEmail dir email = none) :
    getWorkItemStats dir now db { createdBy := some email } =
      .error ("User with email " ++ email ++ " does not exist")
    ∧ getWorkItemStats dir now db { assignedTo := some email } =
      .error ("User with email " ++ email ++ " does not exist")
    ∧ (∃ r, getAllWorkItems dir { assignedTo := some email } {} db = .ok r) := by
  have hne : email ≠ "" := by
    intro he
    rw [he] at hreg
    exact absurd hreg (by decide)
  have htruthy : strTruthy (some email) = true := by simp [strTruthy, hne]
  refine ⟨?_, ?_, ?_⟩
  · unfold getWorkItemStats
    simp [htruthy, hreg, hinactive]
  · unfold getWorkItemStats
    simp [htruthy, hreg, hinactive, strTruthy]
    rw [if_neg hne]
  · unfold getAllWorkItems buildListQuery
    simp [htruthy, hfound]

/-- A directory whose only identity with `bob@x.com` is inactive. -/
def inactiveBob : Admin :=
  { id := "adm2", firstName := "Bob", lastName := "Marley",
    email := "bob@x.com", isActive := false }

/-- Witness for C10 at the concrete one-identity directory. -/
theorem c10_stats_active_only_lookup_witness :
    getWorkItemStats [inactiveBob] 0 [] { createdBy := some "bob@x.com" } =
      .error "User with email bob@x.com does not exist"
    ∧ getWorkItemStats [inactiveBob] 0 [] { assignedTo := some "bob@x.com" } =
      .error "User with email bob@x.com does not exist"
    ∧ (∃ r, getAllWorkItems [inactiveBob] { assignedTo := some "bob@x.com" } {} [] = .ok r) :=
  c10_stats_active_only_lookup [inactiveBob] 0 [] "bob@x.com" inactiveBob
    (by decide) rfl rfl
